import Mathlib

/-!
A shallow embedding of `src/csurv-export-metadata.py`, a script that exports
message metadata from an Elasticsearch cluster to a CSV file using sliced
scroll searches, together with theorems about the embedded definitions.

Modelling conventions:
* JSON values are the inductive type `Json`; a JSON object is an association
  list `JObj` (Python `dict`s preserve insertion order, and documents coming
  from `json.load` have unique keys, but none of the proofs rely on that).
* HTTP responses are a `Response` record holding the status code and the
  parsed body (`response.json()`); network traffic is modelled by passing the
  responses a run would receive as explicit parameters.
* Fallible Python code (KeyError, TypeError, AttributeError,
  `raise_for_status`, explicit `raise`) is modelled in `Except String`.
* In-place mutation of dictionaries is modelled by returning the updated
  value; `copy.deepcopy` is the structural copy `deepcopy`/`deepcopy_obj`.
* Logging, timing (`time.time()`, progress reports) and the CSV file handle
  are pure observability concerns and are omitted; the rows passed to
  `csv_writer.writerow` are collected in output lists instead.
-/

/-- JSON values as produced by Python's `json.loads`. All numbers occurring
in the program are integers, so numbers are modelled as `Int`. -/
inductive Json where
  | null : Json
  | bool : Bool → Json
  | num : Int → Json
  | str : String → Json
  | arr : List Json → Json
  | obj : List (String × Json) → Json

/-- A JSON object: an insertion-ordered association list, as a Python dict. -/
abbrev JObj := List (String × Json)

/-- Python `d[k]` / `d.get(k)` on a dict: first binding of the key, if any. -/
def oget (o : JObj) (k : String) : Option Json :=
  match o with
  | [] => none
  | kv :: rest => if kv.1 == k then some kv.2 else oget rest k

/-- Python `d[k] = v` on a dict: replace the first binding of `k`, or append
a new binding when the key is absent. -/
def oset (o : JObj) (k : String) (v : Json) : JObj :=
  match o with
  | [] => [(k, v)]
  | kv :: rest => if kv.1 == k then (k, v) :: rest else kv :: oset rest k v

/-- Python `d.update(e)` on dicts: set every binding of `e` in `d`. -/
def oupdate (o e : JObj) : JObj :=
  e.foldl (fun acc kv => oset acc kv.1 kv.2) o

/-- Python subscript `v[k]` with a string key: only dicts support it
(KeyError when the key is missing, TypeError on any other JSON value). -/
def jsub (v : Json) (k : String) : Except String Json :=
  match v with
  | .obj o =>
    match oget o k with
    | some x => .ok x
    | none => .error ("KeyError: " ++ k)
  | _ => .error ("TypeError: not subscriptable by key " ++ k)

/-- Whether `pat` is an initial run of `s`, over character lists. -/
def charsStartWith : List Char → List Char → Bool
  | [], _ => true
  | _ :: _, [] => false
  | a :: as, b :: bs => a == b && charsStartWith as bs

/-- Whether `pat` occurs contiguously inside `s`, over character lists. -/
def charsContain (pat : List Char) : List Char → Bool
  | [] => charsStartWith pat []
  | b :: bs => charsStartWith pat (b :: bs) || charsContain pat bs

/-- Python substring test `pat in s`. -/
def strContains (s pat : String) : Bool :=
  charsContain pat.data s.data

/-- Python `==` between a list element and a string constant: only a `str`
with the same contents compares equal. -/
def pyEqStr (v : Json) (s : String) : Bool :=
  match v with
  | .str t => t == s
  | _ => false

/-- Python membership `k in v` for a string `k`: key lookup on dicts,
element equality on lists, substring test on strings, TypeError otherwise. -/
def jmem (k : String) (v : Json) : Except String Bool :=
  match v with
  | .obj o => .ok (oget o k).isSome
  | .arr xs => .ok (xs.any (fun x => pyEqStr x k))
  | .str s => .ok (strContains s k)
  | _ => .error "TypeError: argument is not iterable"

/-- Python use of a JSON value as an integer (the `total_hits > 0`
comparison): numbers are themselves, bools count as 0/1, anything else is a
TypeError. -/
def as_int (v : Json) : Except String Int :=
  match v with
  | .num n => .ok n
  | .bool b => .ok (if b then 1 else 0)
  | _ => .error "TypeError: not comparable with int"

/-- Python `v.split(...)` requires a `str`; any other value has no such
attribute. -/
def as_str (v : Json) : Except String String :=
  match v with
  | .str s => .ok s
  | _ => .error "AttributeError: no attribute split"

/-- Whether an `Except` computation ended in a raised error. -/
def isError {α : Type} (x : Except String α) : Bool :=
  match x with
  | .error _ => true
  | .ok _ => false

/-! Constants of the script (lines 44-63).  The `JSON_*` constants are
defined in the source as JSON text and always consumed through
`json.loads`; they are embedded here directly as the parsed values. -/

/-- NUM_SLICES = 10 (line 44). -/
def NUM_SLICES : Nat := 10

/-- BATCH_SIZE = 10000 (line 45). -/
def BATCH_SIZE : Nat := 10000

/-- SYSTEM_FIELDS = ['_id'] (line 46). -/
def SYSTEM_FIELDS : List String := ["_id"]

/-- DOC_TYPE = 'message' (line 47). -/
def DOC_TYPE : String := "message"

/-- ES_KEEP_ALIVE = '1m' (line 50). -/
def ES_KEEP_ALIVE : String := "1m"

/-- json.loads of JSON_DOC_TYPE_FILTER (line 53). -/
def JSON_DOC_TYPE_FILTER : Json :=
  .obj [("term", .obj [("doc_type", .str DOC_TYPE)])]

/-- json.loads of JSON_TRACK_TOTAL_HITS (line 54), as the dict it is
merged from. -/
def JSON_TRACK_TOTAL_HITS : JObj := [("track_total_hits", .bool true)]

/-- json.loads of JSON_SLICE (line 55): slice id -1, max NUM_SLICES = 10. -/
def JSON_SLICE : JObj :=
  [("slice", .obj [("id", .num (-1)), ("max", .num 10)])]

/-- json.loads of JSON_SIZE (line 56): size BATCH_SIZE = 10000. -/
def JSON_SIZE : JObj := [("size", .num 10000)]

/-- json.loads of JSON_SORT (line 57). -/
def JSON_SORT : JObj := [("sort", .arr [.str "_doc"])]

/-- json.loads of JSON_SCROLL_BODY (line 58). -/
def JSON_SCROLL_BODY : JObj :=
  [("scroll", .str ES_KEEP_ALIVE), ("scroll_id", .str "")]

/-- VERSION_ES5 (line 62). -/
def VERSION_ES5 : String := "5"

/-- VERSION_ES7 (line 63). -/
def VERSION_ES7 : String := "7"

/-- An HTTP response as the script observes it: `response.status_code` and
the parsed JSON body `response.json()`. -/
structure Response where
  status_code : Nat
  body : Json

/-- requests' `Response.raise_for_status`: raises exactly for client and
server error statuses, 400 ≤ status < 600. -/
def raise_for_status (response : Response) : Except String Unit :=
  if 400 ≤ response.status_code ∧ response.status_code < 600 then
    .error ("HTTPError: " ++ toString response.status_code)
  else
    .ok ()

/-- check_search_response (lines 66-73).  `requests.codes.ok` is 200 and
`requests.codes.not_found` is 404.  The Python function returns `True`,
`False`, or falls through `raise_for_status` (returning `None` when that
does not raise, e.g. for 1xx/2xx/3xx statuses other than 200). -/
def check_search_response (response : Response) : Except String (Option Bool) :=
  if response.status_code = 200 then
    .ok (some true)
  else if response.status_code = 404 then
    .ok (some false)
  else
    match raise_for_status response with
    | .error e => .error e
    | .ok _ => .ok none

/-- Python `version_number.split('.')[0]` (line 142): the run of characters
before the first dot, or the whole string when no dot occurs (`str.split`
never returns an empty list, so index 0 always exists). -/
def split_major (version_number : String) : String :=
  String.mk (version_number.data.takeWhile (fun ch => !(ch == '.')))

/-- Python `x is None` applied to a value statically known to be a `str`
(the result of `str.split(...)[0]` in check_es_version line 144): always
false, a `str` is never `None`. -/
def is_none_str (_ : String) : Bool := false

/-- check_es_version (lines 125-145).  The HTTP GET of the root endpoint is
modelled by passing the response; returns the computed global `es_version`.
Line 144 reads `if es_version is None and not (es_version == VERSION_ES5 or
es_version == VERSION_ES7):` — the conjunction's first operand is always
false, embedded faithfully via `is_none_str`. -/
def check_es_version (response : Response) : Except String String := do
  let _ ← check_search_response response
  let version ← jsub response.body "version"
  let number ← jsub version "number"
  let version_number ← as_str number
  let es_version := split_major version_number
  if is_none_str es_version && !(es_version == VERSION_ES5 || es_version == VERSION_ES7) then
    .error ("Unsupported ES version: " ++ version_number ++ ".")
  else
    .ok es_version

/-- The mutation `query_body['slice']['id'] = slice_id` (line 84): KeyError
when the body has no `slice` key, TypeError when its value is not a dict. -/
def set_slice_id (slice_id : Int) (query_body : JObj) : Except String JObj :=
  match oget query_body "slice" with
  | some (.obj so) => .ok (oset query_body "slice" (.obj (oset so "id" (.num slice_id))))
  | some _ => .error "TypeError: does not support item assignment"
  | none => .error "KeyError: slice"

/-- get_message_metadata_search (lines 76-99).  The URL (lines 78-81) only
selects the HTTP target — for ES 5 it includes the `DOC_TYPE` path segment —
and the transport is modelled by passing the `response` the request gets
back.  The function mutates its `query_body` copy (line 84), sends the
request, checks the response (ignoring the returned `True`/`False`/`None`),
and returns `response.json()`. -/
def get_message_metadata_search (slice_id : Int) (query_body : JObj)
    (response : Response) : Except String Json := do
  let _qb ← set_slice_id slice_id query_body
  let _ ← check_search_response response
  .ok response.body

/-- get_message_metadata_scroll (lines 102-122).  Mutates the scroll body's
`scroll_id` (line 107), issues the request, checks the response (result
ignored) and returns `response.json()`. -/
def get_message_metadata_scroll (scroll_id : Json) (scroll_body : JObj)
    (response : Response) : Except String Json :=
  let _scroll_body := oset scroll_body "scroll_id" scroll_id
  match check_search_response response with
  | .error e => .error e
  | .ok _ => .ok response.body

/-- The expression `results['hits']['hits']` (lines 164 and 198) together
with its later use as the sequence iterated by `for hit in hits` — ES
returns a JSON array there; iteration over any other shape is modelled as a
type error. -/
def get_hits (results : Json) : Except String (List Json) :=
  match jsub results "hits" with
  | .error e => .error e
  | .ok h =>
    match jsub h "hits" with
    | .error e => .error e
    | .ok (.arr hs) => .ok hs
    | .ok _ => .error "TypeError: hits is not a list"

/-- Total-hit extraction of process_slice (lines 157-160): a bare integer
under `hits.total` for ES 5, an object `hits.total.value` for ES 7. -/
def get_total_hits (es_version : String) (results : Json) : Except String Int := do
  let h ← jsub results "hits"
  if es_version == VERSION_ES5 then
    let t ← jsub h "total"
    as_int t
  else
    let t ← jsub h "total"
    let v ← jsub t "value"
    as_int v

/-- The per-hit row construction of process_slice (lines 168-178): one value
per SYSTEM_FIELD via `hit.get(f, '')`, then — only when source fields are
requested — one value per source field via `hit['_source'].get(f, '')`.
`dict.get` with default `''` never raises; `hit['_source']` raises KeyError
when absent and `.get` is an AttributeError on a non-dict. -/
def project_hit (source_fields : List String) (hit : Json) : Except String (List Json) :=
  match hit with
  | .obj ho =>
    let values := SYSTEM_FIELDS.map (fun f => (oget ho f).getD (.str ""))
    if source_fields.length > 0 then
      match oget ho "_source" with
      | none => .error "KeyError: _source"
      | some source =>
        match source with
        | .obj so => .ok (values ++ source_fields.map (fun f => (oget so f).getD (.str "")))
        | _ => .error "AttributeError: no attribute get"
    else
      .ok values
  | _ => .error "AttributeError: no attribute get"

/-- The scroll loop of process_slice (lines 166-198).  State per iteration:
the previous parsed response `results`, the current batch `hits`, and the
continuation responses the engine would return to the successive scroll
requests.  Returns the rows written to the CSV writer and the number of
scroll (continuation) requests issued.  The loop condition is
`while total_hits > 0 and len(hits) > 0`; `total_hits` never changes inside
the loop.  Requiring a continuation when the supplied response list is
exhausted is an artifact of the finite model and reports an error. -/
def scroll_loop (source_fields : List String) (total_hits : Int) (results : Json)
    (hits : List Json) (conts : List Response) :
    Except String (List (List Json) × Nat) :=
  if total_hits > 0 ∧ 0 < hits.length then
    match hits.mapM (project_hit source_fields) with
    | .error e => .error e
    | .ok rows =>
      match jsub results "_scroll_id" with
      | .error e => .error e
      | .ok scroll_id =>
        match conts with
        | [] => .error "model: continuation response stream exhausted"
        | r :: rest =>
          match get_message_metadata_scroll scroll_id JSON_SCROLL_BODY r with
          | .error e => .error e
          | .ok results2 =>
            match get_hits results2 with
            | .error e => .error e
            | .ok hits2 =>
              match scroll_loop source_fields total_hits results2 hits2 rest with
              | .error e => .error e
              | .ok (rows2, calls) => .ok (rows ++ rows2, calls + 1)
  else
    .ok ([], 0)

/-- Result of one slice: rows written, the reported total (the return value
of process_slice, line 202) and how many scroll requests were made. -/
structure SliceOutcome where
  rows : List (List Json)
  total_hits : Int
  scroll_calls : Nat

/-- process_slice (lines 148-202) for one slice: initial search, total-hit
parsing, then the scroll loop.  The responses the engine would serve are
passed explicitly: the initial search response and the continuation
responses in order. -/
def process_slice (es_version : String) (slice_id : Int) (query_body : JObj)
    (source_fields : List String) (initResp : Response) (conts : List Response) :
    Except String SliceOutcome := do
  let results ← get_message_metadata_search slice_id query_body initResp
  let total_hits ← get_total_hits es_version results
  let hits ← get_hits results
  let (rows, calls) ← scroll_loop source_fields total_hits results hits conts
  .ok ⟨rows, total_hits, calls⟩

/-- The responses one slice's worker would receive from the engine. -/
structure SliceEnv where
  init : Response
  conts : List Response

/-- Result of save_message_metadata_to_csv: the header row (lines 214-216),
all data rows, and the accumulated total (line 225). -/
structure ExportOutcome where
  header : List String
  rows : List (List Json)
  total_msgs : Int

/-- save_message_metadata_to_csv (lines 205-234).  Writes the header, then
runs process_slice for every slice id in `0..NUM_SLICES-1`, each on its own
deep copy of the bodies (line 222; deep copies of immutable model values are
the values themselves, see `deepcopy_obj`).  `as_completed` surfaces the
first failed future's exception through `future.result()` (line 225): any
slice failure fails the whole export, modelled by the `Except` traversal.
The interleaving of row writes between concurrent workers is unspecified;
the model records rows grouped by slice. -/
def save_message_metadata_to_csv (es_version : String) (query_body : JObj)
    (source_fields : List String) (env : Nat → SliceEnv) :
    Except String ExportOutcome := do
  let header := SYSTEM_FIELDS ++ source_fields
  let outcomes ← (List.range NUM_SLICES).mapM
    (fun i => process_slice es_version (Int.ofNat i) query_body source_fields
      (env i).init (env i).conts)
  .ok ⟨header, (outcomes.map SliceOutcome.rows).flatten,
       (outcomes.map SliceOutcome.total_hits).sum⟩

/-- init_query (lines 237-265).  Merges the fixed slice/size/sort keys, and
for non-ES5 versions also `track_total_hits`, validates the presence of
`query` and `query.bool`, creates `query.bool.filter` when absent and
appends the doc_type term filter.  All dynamic failure modes of the Python
code (explicit raises, TypeError on non-dict subscripting or item
assignment, AttributeError on `.append` of a non-list) are reproduced. -/
def init_query (es_version : String) (query_body : JObj) : Except String JObj :=
  let qb := oupdate query_body JSON_SLICE
  let qb := oupdate qb JSON_SIZE
  let qb := oupdate qb JSON_SORT
  if es_version == VERSION_ES5 then
    .ok qb
  else
    let qb := oupdate qb JSON_TRACK_TOTAL_HITS
    match oget qb "query" with
    | none => .error "JSON query is missing the \"query\" field."
    | some q =>
      match jmem "bool" q with
      | .error e => .error e
      | .ok b =>
        if !b then
          .error "JSON query is missing the \"bool\" field."
        else
          match q with
          | .obj qo =>
            match oget qo "bool" with
            | none => .error "KeyError: bool"
            | some boolv =>
              match jmem "filter" boolv with
              | .error e => .error e
              | .ok hasFilter =>
                match boolv with
                | .obj bo =>
                  let bo1 := if hasFilter then bo else oset bo "filter" (.arr [])
                  match oget bo1 "filter" with
                  | none => .error "KeyError: filter"
                  | some (.arr xs) =>
                    .ok (oset qb "query" (.obj (oset qo "bool"
                      (.obj (oset bo1 "filter" (.arr (xs ++ [JSON_DOC_TYPE_FILTER])))))))
                  | some _ => .error "AttributeError: no attribute append"
                | _ =>
                  if hasFilter then
                    .error ("TypeError: not subscriptable by key filter")
                  else
                    .error "TypeError: does not support item assignment"
          | _ => .error ("TypeError: not subscriptable by key bool")

/-- get_source_fields (lines 268-272): the `_source.includes` value when
present, else an empty list.  The membership test `'includes' in
query_body['_source']` follows Python semantics via `jmem`. -/
def get_source_fields (query_body : JObj) : Except String Json :=
  match oget query_body "_source" with
  | none => .ok (.arr [])
  | some src =>
    match jmem "includes" src with
    | .error e => .error e
    | .ok b =>
      if b then jsub src "includes" else .ok (.arr [])

mutual
/-- copy.deepcopy on JSON values (line 222): a structural copy. -/
def deepcopy : Json → Json
  | .null => .null
  | .bool b => .bool b
  | .num n => .num n
  | .str s => .str s
  | .arr xs => .arr (deepcopy_list xs)
  | .obj kvs => .obj (deepcopy_obj kvs)

def deepcopy_list : List Json → List Json
  | [] => []
  | x :: xs => deepcopy x :: deepcopy_list xs

def deepcopy_obj : List (String × Json) → List (String × Json)
  | [] => []
  | kv :: kvs => (kv.1, deepcopy kv.2) :: deepcopy_obj kvs
end

/-- The fan-out state of the coordinator (lines 219-222): the compiled
query-plan template and the bodies handed to the NUM_SLICES workers. -/
structure FanoutState where
  query_template : JObj
  worker_bodies : List JObj

/-- Lines 219-222: submit one process_slice per slice id, each receiving
`copy.deepcopy(query_body)`. -/
def launch_workers (query_body : JObj) : FanoutState :=
  ⟨query_body, (List.range NUM_SLICES).map (fun _ => deepcopy_obj query_body)⟩

/-- Worker `i` starting up performs line 84, `query_body['slice']['id'] =
slice_id`, on its own body. -/
def worker_set_slice (st : FanoutState) (i : Nat) : Except String FanoutState := do
  let b ← set_slice_id (i : Int) (st.worker_bodies.getD i [])
  .ok { st with worker_bodies := st.worker_bodies.set i b }

/-- Observable over compilation results: the filter list under
`query.bool.filter` of a successfully compiled plan, when that path holds
an object chain. -/
def plan_filter_of (r : Except String JObj) : Option Json :=
  match r with
  | .error _ => none
  | .ok plan =>
    match oget plan "query" with
    | some (.obj qo) =>
      match oget qo "bool" with
      | some (.obj bo) => oget bo "filter"
      | _ => none
    | _ => none

/-- A status `raise_for_status` raises on, other than 404: a client or
server error status. -/
abbrev bad_error_status (r : Response) : Prop :=
  400 ≤ r.status_code ∧ r.status_code < 600 ∧ r.status_code ≠ 404

/-- A continuation response that keeps the scroll loop running: HTTP 200, a
nonempty hits batch, and a scroll id available for the next request. -/
abbrev cont_page_good (r : Response) : Prop :=
  r.status_code = 200
  ∧ (∃ hs, get_hits r.body = .ok hs ∧ hs ≠ [])
  ∧ (∃ sid, jsub r.body "_scroll_id" = .ok sid)

/-- An initial search response that starts the pagination loop: HTTP 200, a
positive parsed total, a nonempty first batch, and a scroll id. -/
abbrev init_page_good (es_version : String) (r : Response) : Prop :=
  r.status_code = 200
  ∧ (∃ th, get_total_hits es_version r.body = .ok th ∧ 0 < th)
  ∧ (∃ hs, get_hits r.body = .ok hs ∧ hs ≠ [])
  ∧ (∃ sid, jsub r.body "_scroll_id" = .ok sid)

/-- A continuation response reporting an exhausted scroll: HTTP 200 with an
empty hits batch. -/
abbrev empty_page (r : Response) : Prop :=
  r.status_code = 200 ∧ get_hits r.body = .ok []

/-! Theorems. -/

/-- Looking up the key just set by `oset` yields the new value. -/
theorem oget_oset_self (o : JObj) (k : String) (v : Json) :
    oget (oset o k v) k = some v := by
  induction o with
  | nil => simp [oset, oget]
  | cons kv rest ih =>
    by_cases hk : kv.1 == k
    · simp [oset, oget, hk]
    · simp [oset, oget, hk, ih]

/-- Looking up any other key after `oset` is unchanged. -/
theorem oget_oset_other (o : JObj) (k k2 : String) (v : Json) (h : k2 ≠ k) :
    oget (oset o k v) k2 = oget o k2 := by
  induction o with
  | nil =>
    simp [oset, oget]
    intro hkk
    exact absurd hkk.symm h
  | cons kv rest ih =>
    by_cases hk : kv.1 == k
    · have hk1 : kv.1 = k := by simpa using hk
      have hkk : ¬(k = k2) := fun e => h e.symm
      simp [oset, hk, oget, hk1, hkk]
    · simp [oset, oget, hk, ih]

/-- Merging a one-key dict is a single `oset`. -/
theorem oupdate_single (o : JObj) (k : String) (v : Json) :
    oupdate o [(k, v)] = oset o k v := rfl

/-- The three pagination keys after the unconditional merges of init_query
(lines 239-241). -/
theorem oget_merged (qb : JObj) :
    oget (oset (oset (oset qb "slice" (Json.obj [("id", Json.num (-1)), ("max", Json.num 10)]))
        "size" (Json.num 10000)) "sort" (Json.arr [Json.str "_doc"])) "slice"
        = some (Json.obj [("id", .num (-1)), ("max", .num 10)])
    ∧ oget (oset (oset (oset qb "slice" (Json.obj [("id", Json.num (-1)), ("max", Json.num 10)]))
        "size" (Json.num 10000)) "sort" (Json.arr [Json.str "_doc"])) "size"
        = some (.num 10000)
    ∧ oget (oset (oset (oset qb "slice" (Json.obj [("id", Json.num (-1)), ("max", Json.num 10)]))
        "size" (Json.num 10000)) "sort" (Json.arr [Json.str "_doc"])) "sort"
        = some (.arr [.str "_doc"]) := by
  refine ⟨?_, ?_, ?_⟩
  · rw [oget_oset_other _ _ _ _ (by decide), oget_oset_other _ _ _ _ (by decide),
        oget_oset_self]
  · rw [oget_oset_other _ _ _ _ (by decide), oget_oset_self]
  · rw [oget_oset_self]

/-- C4: for every input query document, whatever it contained under the
slice, size and sort keys, a plan returned by init_query carries
slice = (id -1, max NUM_SLICES), size = BATCH_SIZE and sort = ["_doc"]:
the fixed constants overwrite any caller-supplied values for those keys. -/
theorem init_query_fixed_pagination_keys (es : String) (qb plan : JObj)
    (h : init_query es qb = .ok plan) :
    oget plan "slice" = some (Json.obj [("id", .num (-1)), ("max", .num 10)])
    ∧ oget plan "size" = some (.num 10000)
    ∧ oget plan "sort" = some (.arr [.str "_doc"]) := by
  unfold init_query at h
  simp only [JSON_SLICE, JSON_SIZE, JSON_SORT, JSON_TRACK_TOTAL_HITS, oupdate_single] at h
  split at h
  · cases h
    exact oget_merged qb
  · repeat' (first | (exact Except.noConfusion h) | split at h)
    all_goals
      cases h
      refine ⟨?_, ?_, ?_⟩
      · rw [oget_oset_other _ _ _ _ (by decide), oget_oset_other _ _ _ _ (by decide)]
        exact (oget_merged qb).1
      · rw [oget_oset_other _ _ _ _ (by decide), oget_oset_other _ _ _ _ (by decide)]
        exact (oget_merged qb).2.1
      · rw [oget_oset_other _ _ _ _ (by decide), oget_oset_other _ _ _ _ (by decide)]
        exact (oget_merged qb).2.2

/-- Witness for C4: a caller-supplied query document that pre-sets the
slice key is compiled with the fixed constants overwriting it. -/
theorem init_query_fixed_pagination_keys_witness :
    oget [("q1", Json.str "x"),
          ("slice", Json.obj [("id", Json.num (-1)), ("max", Json.num 10)]),
          ("size", Json.num 10000), ("sort", Json.arr [Json.str "_doc"])] "slice"
        = some (Json.obj [("id", .num (-1)), ("max", .num 10)])
    ∧ oget [("q1", Json.str "x"),
          ("slice", Json.obj [("id", Json.num (-1)), ("max", Json.num 10)]),
          ("size", Json.num 10000), ("sort", Json.arr [Json.str "_doc"])] "size"
        = some (.num 10000)
    ∧ oget [("q1", Json.str "x"),
          ("slice", Json.obj [("id", Json.num (-1)), ("max", Json.num 10)]),
          ("size", Json.num 10000), ("sort", Json.arr [Json.str "_doc"])] "sort"
        = some (.arr [.str "_doc"]) :=
  init_query_fixed_pagination_keys VERSION_ES5
    [("q1", Json.str "x"), ("slice", Json.str "garbage")] _ rfl

/-- C1 (code bug): a 404 response to a partition's initial search request
does not make process_slice return 0 — check_search_response returns False
for a 404 (line 70) but both callers ignore the returned value, so
process_slice goes on to read `results['hits']` from the 404 error body
(line 158/160) and raises a KeyError, which fails the export.  Evaluated
here on a representative 404 body (`index_not_found_exception` bodies carry
no `hits` section). -/
theorem process_slice_404_initial_keyerror :
    process_slice VERSION_ES7 0
      [("slice", Json.obj [("id", Json.num (-1)), ("max", Json.num 10)])] []
      ⟨404, Json.obj [("error", Json.str "index_not_found_exception"),
                      ("status", Json.num 404)]⟩ []
      = .error "KeyError: hits" := rfl

/-- C2 (code bug): check_es_version accepts every major version.  The guard
on line 144 is `es_version is None and not (...)`, whose first conjunct is
always false for the string result of `split`, so no version is ever
rejected: probing a 6.8.23 server returns es_version '6' without raising. -/
theorem check_es_version_accepts_unknown_major :
    check_es_version ⟨200, Json.obj [("version", Json.obj [("number", Json.str "6.8.23")])]⟩
      = .ok "6" := rfl

/-- C5: for the newer dialect, init_query raises for every query document
that lacks a `query` key or whose `query` value has no `bool` key (for a
non-object `query` value the raised error is a TypeError instead of the
explicit `Exception`, but compilation never succeeds).  init_query performs
no network request, so the failure precedes any search request. -/
theorem init_query_es7_requires_bool_wrapper (qb : JObj)
    (h : ∀ qo : JObj, oget qb "query" = some (.obj qo) → oget qo "bool" = none) :
    isError (init_query VERSION_ES7 qb) = true := by
  unfold init_query
  simp only [JSON_SLICE, JSON_SIZE, JSON_SORT, JSON_TRACK_TOTAL_HITS, oupdate_single]
  rw [if_neg (by decide)]
  have hq : oget (oset (oset (oset (oset qb "slice"
      (Json.obj [("id", Json.num (-1)), ("max", Json.num 10)])) "size" (Json.num 10000))
      "sort" (Json.arr [Json.str "_doc"])) "track_total_hits" (Json.bool true)) "query"
      = oget qb "query" := by
    rw [oget_oset_other _ _ _ _ (by decide), oget_oset_other _ _ _ _ (by decide),
        oget_oset_other _ _ _ _ (by decide), oget_oset_other _ _ _ _ (by decide)]
  rw [hq]
  cases hqq : oget qb "query" with
  | none => simp [isError]
  | some q =>
    cases q with
    | obj qo =>
      have hb := h qo hqq
      simp [jmem, hb, isError]
    | str s => cases hsc : strContains s "bool" <;> simp [jmem, hsc, isError]
    | arr xs => cases ha : xs.any (fun x => pyEqStr x "bool") <;> simp [jmem, ha, isError]
    | num n => simp [jmem, isError]
    | bool b => simp [jmem, isError]
    | null => simp [jmem, isError]

/-- Witness for C5: a match_all query without a bool wrapper is rejected by
the ES7 compilation path. -/
theorem init_query_es7_requires_bool_wrapper_witness :
    isError (init_query VERSION_ES7 [("query", Json.obj [("match_all", Json.obj [])])]) = true :=
  init_query_es7_requires_bool_wrapper [("query", Json.obj [("match_all", Json.obj [])])]
    (fun qo h => by
      have h2 := Json.obj.inj (Option.some.inj h)
      subst h2
      rfl)

/-- C6: for the newer dialect, a query document with a boolean wrapper
compiles successfully; when the wrapper has no filter list the compiled
plan's filter list is exactly the injected doc_type term filter, and when a
filter list is present exactly that one clause is appended to it. -/
theorem init_query_es7_injects_doc_type_filter (qb qo bo : JObj) (xs : List Json)
    (hq : oget qb "query" = some (.obj qo))
    (hb : oget qo "bool" = some (.obj bo))
    (hf : (oget bo "filter" = none ∧ xs = []) ∨ oget bo "filter" = some (.arr xs)) :
    isError (init_query VERSION_ES7 qb) = false
    ∧ plan_filter_of (init_query VERSION_ES7 qb)
        = some (.arr (xs ++ [JSON_DOC_TYPE_FILTER])) := by
  have hq4 : oget (oset (oset (oset (oset qb "slice"
      (Json.obj [("id", Json.num (-1)), ("max", Json.num 10)])) "size" (Json.num 10000))
      "sort" (Json.arr [Json.str "_doc"])) "track_total_hits" (Json.bool true)) "query"
      = some (.obj qo) := by
    rw [oget_oset_other _ _ _ _ (by decide), oget_oset_other _ _ _ _ (by decide),
        oget_oset_other _ _ _ _ (by decide), oget_oset_other _ _ _ _ (by decide), hq]
  have hrun : init_query VERSION_ES7 qb
      = .ok (oset (oset (oset (oset (oset qb "slice"
          (Json.obj [("id", Json.num (-1)), ("max", Json.num 10)])) "size" (Json.num 10000))
          "sort" (Json.arr [Json.str "_doc"])) "track_total_hits" (Json.bool true)) "query"
          (.obj (oset qo "bool" (.obj (oset (if (oget bo "filter").isSome then bo
              else oset bo "filter" (.arr [])) "filter"
            (.arr (xs ++ [JSON_DOC_TYPE_FILTER]))))))) := by
    unfold init_query
    simp only [JSON_SLICE, JSON_SIZE, JSON_SORT, JSON_TRACK_TOTAL_HITS, oupdate_single]
    rw [if_neg (by decide), hq4]
    simp only [jmem, hb, Option.isSome, Bool.not_true]
    rcases hf with ⟨hfn, hxe⟩ | hfs
    · subst hxe
      simp [hfn, oget_oset_self]
    · simp [hfs, oget_oset_self]
  constructor
  · rw [hrun]
    rfl
  · rw [hrun]
    simp only [plan_filter_of, oget_oset_self]

/-- Witness for C6: a bool wrapper without a filter list compiles to a plan
whose filter list holds exactly the injected doc_type term filter. -/
theorem init_query_es7_injects_doc_type_filter_witness :
    isError (init_query VERSION_ES7 [("query", Json.obj [("bool", Json.obj [])])]) = false
    ∧ plan_filter_of (init_query VERSION_ES7 [("query", Json.obj [("bool", Json.obj [])])])
        = some (.arr [JSON_DOC_TYPE_FILTER]) :=
  init_query_es7_injects_doc_type_filter
    [("query", Json.obj [("bool", Json.obj [])])] [("bool", Json.obj [])] [] []
    rfl rfl (Or.inl ⟨rfl, rfl⟩)

/-- C10: for the V5 dialect, init_query never raises: it returns right
after merging the slice, size and sort keys, leaving the query predicate
untouched (no bool requirement, no doc_type filter) and not setting
track_total_hits. -/
theorem init_query_es5_no_validation (qb : JObj) :
    isError (init_query VERSION_ES5 qb) = false
    ∧ ∀ plan, init_query VERSION_ES5 qb = .ok plan →
        oget plan "track_total_hits" = oget qb "track_total_hits"
        ∧ oget plan "query" = oget qb "query" := by
  have hrun : init_query VERSION_ES5 qb
      = .ok (oset (oset (oset qb "slice"
          (Json.obj [("id", Json.num (-1)), ("max", Json.num 10)])) "size" (Json.num 10000))
          "sort" (Json.arr [Json.str "_doc"])) := by
    unfold init_query
    simp only [JSON_SLICE, JSON_SIZE, JSON_SORT, oupdate_single]
    rw [if_pos (by decide)]
  refine ⟨by rw [hrun]; rfl, ?_⟩
  intro plan hp
  rw [hrun] at hp
  cases hp
  constructor
  · rw [oget_oset_other _ _ _ _ (by decide), oget_oset_other _ _ _ _ (by decide),
        oget_oset_other _ _ _ _ (by decide)]
  · rw [oget_oset_other _ _ _ _ (by decide), oget_oset_other _ _ _ _ (by decide),
        oget_oset_other _ _ _ _ (by decide)]

/-- Witness for C10: a document with no bool wrapper and an explicit
track_total_hits value compiles under V5 with both left untouched. -/
theorem init_query_es5_no_validation_witness :
    isError (init_query VERSION_ES5
        [("query", Json.str "x"), ("track_total_hits", Json.bool false)]) = false
    ∧ (oget [("query", Json.str "x"), ("track_total_hits", Json.bool false),
             ("slice", Json.obj [("id", Json.num (-1)), ("max", Json.num 10)]),
             ("size", Json.num 10000), ("sort", Json.arr [Json.str "_doc"])] "track_total_hits"
          = oget [("query", Json.str "x"), ("track_total_hits", Json.bool false)] "track_total_hits"
       ∧ oget [("query", Json.str "x"), ("track_total_hits", Json.bool false),
             ("slice", Json.obj [("id", Json.num (-1)), ("max", Json.num 10)]),
             ("size", Json.num 10000), ("sort", Json.arr [Json.str "_doc"])] "query"
          = oget [("query", Json.str "x"), ("track_total_hits", Json.bool false)] "query") :=
  ⟨(init_query_es5_no_validation [("query", Json.str "x"), ("track_total_hits", Json.bool false)]).1,
   (init_query_es5_no_validation [("query", Json.str "x"), ("track_total_hits", Json.bool false)]).2
     _ rfl⟩

/-- C3: every hit processed by process_slice yields a row of exactly
len(SYSTEM_FIELDS) + len(source_fields) values — the header width of
save_message_metadata_to_csv — and a selected field absent from the
document's `_source` contributes the empty string at its position instead
of shortening the row or raising.  The hypothesis reflects the engine
interface: a hit is a JSON object carrying a `_source` object whenever
source fields were selected. -/
theorem project_hit_row_width_and_defaults (ho so : JObj) (sf : List String)
    (hsrc : sf = [] ∨ oget ho "_source" = some (.obj so)) :
    project_hit sf (.obj ho)
        = .ok (SYSTEM_FIELDS.map (fun f => (oget ho f).getD (.str ""))
            ++ sf.map (fun f => (oget so f).getD (.str "")))
    ∧ (SYSTEM_FIELDS.map (fun f => (oget ho f).getD (.str ""))
        ++ sf.map (fun f => (oget so f).getD (.str ""))).length
        = SYSTEM_FIELDS.length + sf.length
    ∧ ∀ j (hj : j < sf.length), oget so (sf.get ⟨j, hj⟩) = none →
        (SYSTEM_FIELDS.map (fun f => (oget ho f).getD (.str ""))
          ++ sf.map (fun f => (oget so f).getD (.str ""))).get? (SYSTEM_FIELDS.length + j)
          = some (.str "") := by
  refine ⟨?_, by simp, ?_⟩
  · rcases hsrc with h | h
    · subst h
      simp [project_hit]
    · cases sf with
      | nil => simp [project_hit]
      | cons f fs => simp [project_hit, h]
  · intro j hj hnone
    simp only [List.get_eq_getElem] at hnone
    rw [List.get?_eq_getElem?, List.getElem?_append_right (by simp)]
    have hidx : SYSTEM_FIELDS.length + j - (SYSTEM_FIELDS.map
        (fun f => (oget ho f).getD (.str ""))).length = j := by simp
    rw [hidx, List.getElem?_map, List.getElem?_eq_getElem hj]
    simp [hnone]

/-- Witness for C3: a document holding field `a` but missing selected field
`b` projects to a full-width row with the empty string in `b`'s position. -/
theorem project_hit_row_width_and_defaults_witness :
    project_hit ["a", "b"]
        (.obj [("_id", Json.str "A"), ("_source", Json.obj [("a", Json.num 1)])])
      = .ok [Json.str "A", Json.num 1, Json.str ""]
    ∧ ([Json.str "A", Json.num 1, Json.str ""] : List Json).get? 2 = some (Json.str "") := by
  have h := project_hit_row_width_and_defaults
    [("_id", Json.str "A"), ("_source", Json.obj [("a", Json.num 1)])]
    [("a", Json.num 1)] ["a", "b"] (Or.inr rfl)
  exact ⟨h.1, h.2.2 1 (by decide) rfl⟩

/-- A scroll loop with an empty current batch performs no iteration. -/
theorem scroll_loop_nil_hits (sf : List String) (th : Int) (results : Json)
    (conts : List Response) : scroll_loop sf th results [] conts = .ok ([], 0) := by
  rw [scroll_loop.eq_def]
  rw [if_neg]
  intro h
  exact absurd h.2 (by simp)

/-- A scroll request answered with HTTP 200 returns the response body. -/
theorem scroll_ok200 (sid : Json) (sb : JObj) (r : Response) (h200 : r.status_code = 200) :
    get_message_metadata_scroll sid sb r = .ok r.body := by
  simp [get_message_metadata_scroll, check_search_response, h200]

/-- The scroll loop never consumes responses past the first empty batch:
whatever follows an empty continuation page is irrelevant to the result. -/
theorem scroll_loop_ignores_after_empty (sf : List String) (th : Int)
    (goods : List Response) : ∀ (results : Json) (hits : List Json)
    (emptyr : Response) (rest : List Response),
    (∀ r ∈ goods, cont_page_good r) → empty_page emptyr →
    scroll_loop sf th results hits (goods ++ emptyr :: rest)
      = scroll_loop sf th results hits (goods ++ [emptyr]) := by
  induction goods with
  | nil =>
    intro results hits emptyr rest hg he
    by_cases hc : th > 0 ∧ 0 < hits.length
    · conv_lhs => rw [scroll_loop.eq_def]
      conv_rhs => rw [scroll_loop.eq_def]
      rw [if_pos hc, if_pos hc]
      cases hm : hits.mapM (project_hit sf) with
      | error e => simp only [List.nil_append]
      | ok rows =>
        simp only [List.nil_append]
        cases hs : jsub results "_scroll_id" with
        | error e => simp only [hs]
        | ok sid =>
          simp only [hs, scroll_ok200 _ _ _ he.1, he.2,
            scroll_loop_nil_hits]
    · conv_lhs => rw [scroll_loop.eq_def]
      conv_rhs => rw [scroll_loop.eq_def]
      rw [if_neg hc, if_neg hc]
  | cons g gs ih =>
    intro results hits emptyr rest hg he
    by_cases hc : th > 0 ∧ 0 < hits.length
    · conv_lhs => rw [scroll_loop.eq_def]
      conv_rhs => rw [scroll_loop.eq_def]
      rw [if_pos hc, if_pos hc]
      cases hm : hits.mapM (project_hit sf) with
      | error e => simp only [List.cons_append]
      | ok rows =>
        cases hs : jsub results "_scroll_id" with
        | error e => simp only [hs]
        | ok sid =>
          have hg0 : cont_page_good g := hg g (by simp)
          obtain ⟨h200, ⟨hs2, hhs2, hne⟩, hsid⟩ := hg0
          simp only [hs, List.cons_append, scroll_ok200 _ _ _ h200, hhs2]
          rw [ih g.body hs2 emptyr rest (fun r hr => hg r (by simp [hr])) he]
    · conv_lhs => rw [scroll_loop.eq_def]
      conv_rhs => rw [scroll_loop.eq_def]
      rw [if_neg hc, if_neg hc]

/-- C8: the pagination loop of process_slice runs zero iterations when the
reported total is zero or the first batch is empty, and otherwise stops at
the first continuation response carrying an empty hits batch irrespective
of the reported total (which is quantified freely here): responses beyond
that empty batch are never consumed, so exhaustion is decided by empty
batches, not by comparing the cumulative count with the total. -/
theorem scroll_loop_empty_batch_termination (sf : List String) (th : Int)
    (results : Json) (hits : List Json) (conts : List Response)
    (goods : List Response) (emptyr : Response) (rest : List Response) :
    ((th = 0 ∨ hits = []) → scroll_loop sf th results hits conts = .ok ([], 0))
    ∧ ((∀ r ∈ goods, cont_page_good r) → empty_page emptyr →
        scroll_loop sf th results hits (goods ++ emptyr :: rest)
          = scroll_loop sf th results hits (goods ++ [emptyr])) := by
  constructor
  · intro h
    rw [scroll_loop.eq_def, if_neg]
    intro hc
    rcases h with h | h
    · subst h
      exact absurd hc.1 (by simp)
    · subst h
      exact absurd hc.2 (by simp)
  · intro hg he
    exact scroll_loop_ignores_after_empty sf th goods results hits emptyr rest hg he

/-- Witness for C8: with total 5 pending, the loop after a first batch of
one document ignores everything after the empty continuation batch (here a
trailing 500 response that is never requested), and a zero-total loop does
no iteration. -/
theorem scroll_loop_empty_batch_termination_witness :
    scroll_loop [] 0 (Json.obj [("_scroll_id", Json.str "s")]) [] [] = .ok ([], 0)
    ∧ scroll_loop [] 5 (Json.obj [("_scroll_id", Json.str "s")]) [Json.obj []]
        ([] ++ (⟨200, Json.obj [("hits", Json.obj [("hits", Json.arr [])])]⟩ : Response)
          :: [⟨500, Json.null⟩])
      = scroll_loop [] 5 (Json.obj [("_scroll_id", Json.str "s")]) [Json.obj []]
        ([] ++ [⟨200, Json.obj [("hits", Json.obj [("hits", Json.arr [])])]⟩]) :=
  ⟨(scroll_loop_empty_batch_termination [] 0 (Json.obj [("_scroll_id", Json.str "s")])
      [] [] [] ⟨200, Json.null⟩ []).1 (Or.inl rfl),
   (scroll_loop_empty_batch_termination [] 5 (Json.obj [("_scroll_id", Json.str "s")])
      [Json.obj []] [] [] ⟨200, Json.obj [("hits", Json.obj [("hits", Json.arr [])])]⟩
      [⟨500, Json.null⟩]).2
    (fun r hr => absurd hr (List.not_mem_nil r)) ⟨rfl, rfl⟩⟩

/-- check_search_response raises exactly on the statuses raise_for_status
raises on, 404 excluded. -/
theorem check_bad_status (r : Response) (hb : bad_error_status r) :
    isError (check_search_response r) = true := by
  have h200 : r.status_code ≠ 200 := by omega
  have h404 : r.status_code ≠ 404 := hb.2.2
  simp [check_search_response, raise_for_status, h200, h404, hb.1, hb.2.1, isError]

/-- A scroll loop that reaches a continuation response with a client or
server error status (after any run of good pages) raises. -/
theorem scroll_loop_bad_cont (sf : List String) (th : Int) (goods : List Response) :
    ∀ (results : Json) (hits : List Json) (badr : Response) (rest : List Response),
    th > 0 → hits ≠ [] →
    (∃ sid, jsub results "_scroll_id" = .ok sid) →
    (∀ r ∈ goods, cont_page_good r) → bad_error_status badr →
    isError (scroll_loop sf th results hits (goods ++ badr :: rest)) = true := by
  induction goods with
  | nil =>
    intro results hits badr rest hth hne hsid hg hb
    rw [scroll_loop.eq_def, if_pos ⟨hth, List.length_pos.mpr hne⟩]
    cases hm : hits.mapM (project_hit sf) with
    | error e => simp only [hm]; rfl
    | ok rows =>
      obtain ⟨sid, hsid⟩ := hsid
      have hch : isError (check_search_response badr) = true := check_bad_status badr hb
      cases hche : check_search_response badr with
      | error e =>
        simp only [hm, hsid, List.nil_append, get_message_metadata_scroll, hche]
        rfl
      | ok v =>
        rw [hche] at hch
        exact absurd hch (by simp [isError])
  | cons g gs ih =>
    intro results hits badr rest hth hne hsid hg hb
    rw [scroll_loop.eq_def, if_pos ⟨hth, List.length_pos.mpr hne⟩]
    cases hm : hits.mapM (project_hit sf) with
    | error e => simp only [hm]; rfl
    | ok rows =>
      obtain ⟨sid, hsid⟩ := hsid
      have hg0 := hg g (by simp)
      obtain ⟨h200, ⟨hs2, hhs2, hne2⟩, hsid2⟩ := hg0
      simp only [hm, hsid, List.cons_append, scroll_ok200 _ _ _ h200, hhs2]
      have hrec := ih g.body hs2 badr rest hth hne2 hsid2
        (fun r hr => hg r (by simp [hr])) hb
      cases hr2 : scroll_loop sf th g.body hs2 (gs ++ badr :: rest) with
      | error e => simp only [hr2]; rfl
      | ok pr =>
        rw [hr2] at hrec
        exact absurd hrec (by simp [isError])

/-- process_slice raises when its initial search request is answered with a
client or server error status other than 404. -/
theorem process_slice_init_bad (es : String) (sid : Int) (qb : JObj)
    (sf : List String) (initR : Response) (conts : List Response)
    (hb : bad_error_status initR) :
    isError (process_slice es sid qb sf initR conts) = true := by
  cases hset : set_slice_id sid qb with
  | error e =>
    simp [process_slice, get_message_metadata_search, hset, isError, Bind.bind, Except.bind]
  | ok qb2 =>
    have hch : isError (check_search_response initR) = true := check_bad_status _ hb
    cases hche : check_search_response initR with
    | error e =>
      simp [process_slice, get_message_metadata_search, hset, hche, isError,
        Bind.bind, Except.bind]
    | ok v =>
      rw [hche] at hch
      exact absurd hch (by simp [isError])

/-- process_slice raises when a continuation response reached by its
pagination carries a client or server error status other than 404. -/
theorem process_slice_bad (es : String) (sid : Int) (qb : JObj) (sf : List String)
    (initR : Response) (conts goods : List Response) (badr : Response)
    (rest : List Response) (hsplit : conts = goods ++ badr :: rest)
    (hinit : init_page_good es initR) (hg : ∀ r ∈ goods, cont_page_good r)
    (hb : bad_error_status badr) :
    isError (process_slice es sid qb sf initR conts) = true := by
  obtain ⟨h200, ⟨th, hth, hthpos⟩, ⟨hs0, hhs0, hne0⟩, hsid0⟩ := hinit
  cases hset : set_slice_id sid qb with
  | error e =>
    simp [process_slice, get_message_metadata_search, hset, isError, Bind.bind, Except.bind]
  | ok qb2 =>
    have hloop : isError (scroll_loop sf th initR.body hs0 conts) = true := by
      rw [hsplit]
      exact scroll_loop_bad_cont sf th goods initR.body hs0 badr rest hthpos hne0 hsid0 hg hb
    cases hlp : scroll_loop sf th initR.body hs0 conts with
    | error e =>
      simp [process_slice, get_message_metadata_search, hset, check_search_response,
        h200, hth, hhs0, hlp, isError, Bind.bind, Except.bind]
    | ok pr =>
      rw [hlp] at hloop
      exact absurd hloop (by simp [isError])

/-- A traversal in the Except monad raises when any traversed element
raises. -/
theorem mapM_isError {α β : Type} (f : α → Except String β) (l : List α) (x : α)
    (hx : x ∈ l) (he : isError (f x) = true) : isError (l.mapM f) = true := by
  induction l with
  | nil => cases hx
  | cons a as ih =>
    rw [List.mapM_cons]
    cases hfa : f a with
    | error e => simp [hfa, isError, Bind.bind, Except.bind]
    | ok b =>
      cases List.mem_cons.mp hx with
      | inl hxa =>
        subst hxa
        rw [hfa] at he
        exact absurd he (by simp [isError])
      | inr hxs =>
        have hrest := ih hxs
        cases hr : as.mapM f with
        | error e => simp [hfa, hr, isError, Bind.bind, Except.bind]
        | ok bs =>
          rw [hr] at hrest
          exact absurd hrest (by simp [isError])

/-- C7 (amended): a response with a client or server error status other
than 404 (the statuses `raise_for_status` raises on), at any point of a
partition's pagination — the initial page or any reached continuation —
raises an error that terminates that partition's loop, and the coordinator
re-raises it, failing the entire export.  Statuses outside 200, 404 and the
400-599 range do not raise (see the accompanying counterexample). -/
theorem export_fails_on_client_server_error_status (es : String) (qb : JObj)
    (sf : List String) (env : Nat → SliceEnv) (i : Nat) (hi : i < NUM_SLICES)
    (hbad : bad_error_status (env i).init
      ∨ (init_page_good es (env i).init
         ∧ ∃ goods badr rest, (env i).conts = goods ++ badr :: rest
             ∧ (∀ r ∈ goods, cont_page_good r) ∧ bad_error_status badr)) :
    isError (save_message_metadata_to_csv es qb sf env) = true := by
  have hslice : isError (process_slice es (Int.ofNat i) qb sf (env i).init (env i).conts)
      = true := by
    rcases hbad with hb | ⟨hinit, goods, badr, rest, hsplit, hg, hb⟩
    · exact process_slice_init_bad es (Int.ofNat i) qb sf (env i).init (env i).conts hb
    · exact process_slice_bad es (Int.ofNat i) qb sf (env i).init (env i).conts
        goods badr rest hsplit hinit hg hb
  have hm := mapM_isError
    (fun j => process_slice es (Int.ofNat j) qb sf (env j).init (env j).conts)
    (List.range NUM_SLICES) i (List.mem_range.mpr hi) hslice
  unfold save_message_metadata_to_csv
  simp only []
  cases hmm : (List.range NUM_SLICES).mapM
      (fun i => process_slice es (Int.ofNat i) qb sf (env i).init (env i).conts) with
  | error e =>
    rfl
  | ok outs =>
    rw [hmm] at hm
    exact absurd hm (by simp [isError])

/-- Witness for C7 (amended): an export whose slice-0 initial search is
answered with HTTP 500 fails as a whole. -/
theorem export_fails_on_client_server_error_status_witness :
    isError (save_message_metadata_to_csv VERSION_ES7
      [("slice", Json.obj [("id", Json.num (-1)), ("max", Json.num 10)])] []
      (fun _ => ⟨⟨500, Json.null⟩, []⟩)) = true :=
  export_fails_on_client_server_error_status VERSION_ES7
    [("slice", Json.obj [("id", Json.num (-1)), ("max", Json.num 10)])] []
    (fun _ => ⟨⟨500, Json.null⟩, []⟩) 0 (by decide) (Or.inl (by decide))

/-- Counterexample to C7 as stated: an HTTP 303 response — neither a 200
nor a 404 — on every partition's initial search request does not fail the
export.  check_search_response falls through to raise_for_status, which
does not raise outside 400-599, so the export completes and reports
success (an empty result here, as the 303 body carries a zero total). -/
theorem export_survives_303_status :
    save_message_metadata_to_csv VERSION_ES7
      [("slice", Json.obj [("id", Json.num (-1)), ("max", Json.num 10)])] []
      (fun _ => ⟨⟨303, Json.obj [("hits", Json.obj [("total", Json.obj [("value", Json.num 0)]),
                                                    ("hits", Json.arr [])])]⟩, []⟩)
      = .ok ⟨["_id"], [], 0⟩ := rfl

/-- C9: the coordinator hands each of the NUM_SLICES workers an independent
deep copy of the compiled plan (line 222), so worker `i` setting the slice
id inside its own copy (line 84) leaves the shared template and every other
worker's copy unchanged: after worker `i` starts, worker `j ≠ i` still
holds exactly the deep copy of the template it was given. -/
theorem worker_plan_copies_isolated (qb : JObj) (i j : Nat) (st : FanoutState)
    (_hi : i < NUM_SLICES) (hj : j < NUM_SLICES) (hne : j ≠ i)
    (hrun : worker_set_slice (launch_workers qb) i = .ok st) :
    st.query_template = qb ∧ st.worker_bodies.getD j [] = deepcopy_obj qb := by
  unfold worker_set_slice at hrun
  cases hset : set_slice_id (i : Int) ((launch_workers qb).worker_bodies.getD i []) with
  | error e =>
    rw [hset] at hrun
    exact Except.noConfusion hrun
  | ok b =>
    rw [hset] at hrun
    simp only [Bind.bind, Except.bind] at hrun
    cases hrun
    constructor
    · rfl
    · show (((List.range NUM_SLICES).map (fun _ => deepcopy_obj qb)).set i b).getD j [] = _
      rw [List.getD_eq_getElem?_getD, List.getElem?_set_ne (fun h => hne h.symm),
          List.getElem?_map, List.getElem?_range hj]
      rfl

/-- Witness for C9: after worker 0 sets its slice id, worker 1 still holds
the unmodified deep copy of the compiled plan, and the template is
unchanged. -/
theorem worker_plan_copies_isolated_witness :
    (FanoutState.mk [("slice", Json.obj [("id", Json.num (-1)), ("max", Json.num 10)])]
        ([("slice", Json.obj [("id", Json.num 0), ("max", Json.num 10)])] ::
          List.replicate 9 [("slice", Json.obj [("id", Json.num (-1)), ("max", Json.num 10)])])).query_template
      = [("slice", Json.obj [("id", Json.num (-1)), ("max", Json.num 10)])]
    ∧ (FanoutState.mk [("slice", Json.obj [("id", Json.num (-1)), ("max", Json.num 10)])]
        ([("slice", Json.obj [("id", Json.num 0), ("max", Json.num 10)])] ::
          List.replicate 9 [("slice", Json.obj [("id", Json.num (-1)), ("max", Json.num 10)])])).worker_bodies.getD 1 []
      = deepcopy_obj [("slice", Json.obj [("id", Json.num (-1)), ("max", Json.num 10)])] :=
  worker_plan_copies_isolated
    [("slice", Json.obj [("id", Json.num (-1)), ("max", Json.num 10)])] 0 1 _
    (by decide) (by decide) (by decide) rfl
